import Mathlib

/-!
Shallow embedding of `bot.py` (repository arsLnD/bottelega), the process
lifecycle shell of a Telegram bot built on aiogram.

The script is straight-line module-level code with a few nested function
definitions.  We model one run of the interpreter on `bot.py` as `__main__`
as a pure function `runBot : Env → RunResult`, where `Env` fixes the
behaviour of the external world (configuration values and the outcomes of
calls into external libraries), and `RunResult` records the ordered trace of
observable events, the entries the script itself wrote into the process-wide
module registry `sys.modules`, and how the process ended.

External collaborators (`aiogram`, `config.py`, `web_server.py`, the handler
modules) are black boxes: each call into them is represented by an `Env`
field saying whether that call succeeds or raises, matching exactly the
failure points the source code guards with try/except.
-/

/-- Outcome of `Bot(token=bot_token, parse_mode="HTML")` at bot.py line 26:
the constructor returns normally, raises `ValidationError`, or raises some
other exception.  The two exception arms correspond to the two except
clauses at lines 28 and 31. -/
inductive BotInitOutcome
  | ok
  | validationError
  | otherError
deriving DecidableEq

/-- Outcome of the conventional `import handlers` statement at bot.py
line 45: success, `ModuleNotFoundError` (the only exception class caught by
the except clause at line 46), or an exception of any other class (raised,
for example, by code inside the handlers package while it executes). -/
inductive ImportOutcome
  | ok
  | moduleNotFound
  | otherException
deriving DecidableEq

/-- Observable events of one run of bot.py, in program order.
`logInfo` and `logError` are the logger calls (message texts abridged to
their constant leading part, without interpolated values).
`registryInsert n` is an explicit assignment `sys.modules[n] = ...` made by
bot.py itself (lines 58 and 70); `submoduleLoaded n` is the successful
completion of `exec_module` for that module; `importOk` is a successful
conventional `import handlers` (whose internal registry effects belong to
the interpreter, not to bot.py).  `closeStorage` and `waitClosed` are
`dp.storage.close()` and `dp.storage.wait_closed()` (lines 93 and 94). -/
inductive Ev
  | logInfo (msg : String)
  | logError (msg : String)
  | botCreated
  | storageCreated
  | dispatcherCreated
  | webServerCreated (port : Int)
  | importOk
  | sysPathInsert
  | registryInsert (name : String)
  | submoduleLoaded (name : String)
  | listenerStarted
  | pollingStarted
  | closeStorage
  | waitClosed
deriving DecidableEq

/-- How the process ended: a `SystemExit` with the given status (0 models
the script running to completion and the interpreter exiting normally;
1 is the explicit `sys.exit(1)` at line 125), or an uncaught exception
escaping module-level code, which terminates the interpreter with a
traceback.  The string names the statement the exception escaped from. -/
inductive Outcome
  | exitCode (n : Nat)
  | uncaughtException (site : String)
deriving DecidableEq

/-- The external world, as seen through the calls bot.py makes.
`tokenSet` is the truthiness of `config.bot_token`; `botInit` only matters
when the token is set (line 26 runs only then).  `portVar` is
`os.environ.get("PORT")`.  The five Bool flags after `importHandlers`
select, for the fallback loader, whether the handlers directory exists and
whether `exec_module` raises for the package initializer and for each of
the three listed submodules.  `listenerStartFails` is whether
`web_server.start_server()` raises inside `on_startup`;
`pollingFails` is whether `executor.start_polling` raises while
establishing the polling loop. -/
structure Env where
  tokenSet : Bool
  botInit : BotInitOutcome
  portVar : Option String
  importHandlers : ImportOutcome
  handlersDirExists : Bool
  pkgInitFails : Bool
  startFails : Bool
  adminFails : Bool
  ownerFails : Bool
  listenerStartFails : Bool
  pollingFails : Bool
deriving DecidableEq

/-- Result of a run: the trace of events, the module names bot.py itself
inserted into `sys.modules` (in insertion order), and the way the process
ended. -/
structure RunResult where
  events : List Ev
  sysModules : List String
  outcome : Outcome
deriving DecidableEq

/-- The `sys.modules` entries written by the script, read off the trace. -/
def registryOf (evs : List Ev) : List String :=
  evs.filterMap (fun e =>
    match e with
    | Ev.registryInsert n => some n
    | _ => none)

/-- Python `str.strip` whitespace characters (the ASCII ones; `int` strips
these from both ends before parsing). -/
def pyIsSpace (c : Char) : Bool :=
  c = ' ' || c = '\t' || c = '\n' || c = '\r' || c = '\x0b' || c = '\x0c'

/-- Numeric value of an ASCII digit. -/
def digitVal (c : Char) : Nat :=
  c.toNat - 48

/-- Continuation of the digit parser: after at least one digit has been
read, accepts further digits, with single underscores allowed only between
two digits (Python 3 integer-literal grammar). -/
def parseMore : List Char → Nat → Option Nat
  | [], acc => some acc
  | '_' :: c :: rest, acc =>
      if c.isDigit then parseMore rest (acc * 10 + digitVal c) else none
  | ['_'], _ => none
  | c :: rest, acc =>
      if c.isDigit then parseMore rest (acc * 10 + digitVal c) else none

/-- Parses a nonempty ASCII digit string with internal underscores,
failing on anything else. -/
def parseDigits : List Char → Option Nat
  | [] => none
  | c :: rest => if c.isDigit then parseMore rest (digitVal c) else none

/-- Strips Python whitespace from both ends. -/
def stripPy (cs : List Char) : List Char :=
  ((cs.dropWhile pyIsSpace).reverse.dropWhile pyIsSpace).reverse

/-- Python `int(s)` for a `str` argument, on the ASCII forms: optional
surrounding whitespace, an optional sign, then a decimal literal with
optional single internal underscores.  `none` models `int` raising
`ValueError`. -/
def pythonInt (s : String) : Option Int :=
  match stripPy s.data with
  | '+' :: rest => (parseDigits rest).map Int.ofNat
  | '-' :: rest => (parseDigits rest).map (fun n => -(n : Int))
  | cs => (parseDigits cs).map Int.ofNat

/-- The value of `int(os.environ.get("PORT", 8080))` at bot.py line 41:
when `PORT` is absent, `get` returns the `int` 8080 and `int` is the
identity on it; when present, the string is parsed and `none` models the
uncaught `ValueError`. -/
def portValue : Option String → Option Int
  | none => some 8080
  | some s => pythonInt s

/-- Events of the bot-initialization try/except at bot.py lines 22 to 33.
An unset token raises `ValueError`, caught by the generic except clause at
line 31; `ValidationError` and other constructor failures are caught by
lines 28 and 31 respectively.  Every failure arm leaves `bot = None`. -/
def botInitEvents (tokenSet : Bool) (r : BotInitOutcome) : List Ev :=
  if tokenSet = false then
    [Ev.logError "Failed to initialize bot: BOT_TOKEN is not set"]
  else
    match r with
    | BotInitOutcome.ok =>
        [Ev.botCreated, Ev.logInfo "Bot initialized successfully"]
    | BotInitOutcome.validationError =>
        [Ev.logError "Invalid bot token provided. Please check your BOT_TOKEN in .env file"]
    | BotInitOutcome.otherError =>
        [Ev.logError "Failed to initialize bot"]

/-- One iteration of the submodule loop at bot.py lines 62 to 73: the spec
and module objects are created from the file path, the module is inserted
into `sys.modules[name]` (line 70), and only then is its code executed
(line 71); a raise from `exec_module` is caught at line 72 and logged.
For a literal `.py` or `__init__.py` path, `spec_from_file_location`
returns a spec and `module_from_spec` does not run module code, so
`exec_module` is the failure point of the iteration. -/
def submoduleLoad (name : String) (fails : Bool) : List Ev :=
  Ev.registryInsert name ::
    (if fails then [Ev.logError ("Failed to import " ++ name)]
     else [Ev.submoduleLoaded name])

/-- The package-initializer load at bot.py lines 52 to 61: the handlers
module object is registered as `sys.modules["handlers"]` (line 58) before
`exec_module` runs it (line 59); a raise is caught at line 60 and logged,
and execution falls through to the submodule loop either way. -/
def pkgInitLoad (fails : Bool) : List Ev :=
  Ev.registryInsert "handlers" ::
    (if fails then [Ev.logError "Failed to load handlers package"]
     else [Ev.submoduleLoaded "handlers"])

/-- The fallback path-based loading branch at bot.py lines 47 to 75,
entered only on `ModuleNotFoundError`: the base directory is pushed onto
`sys.path` (line 48), then, if the handlers directory exists, the package
initializer and the three known submodules are loaded independently;
otherwise a single error is logged and nothing is loaded. -/
def fallbackEvents (dirExists pkgFail stFail adFail owFail : Bool) : List Ev :=
  Ev.sysPathInsert ::
    (if dirExists then
      pkgInitLoad pkgFail
        ++ submoduleLoad "handlers.start" stFail
        ++ submoduleLoad "handlers.admin" adFail
        ++ submoduleLoad "handlers.owner" owFail
    else [Ev.logError "Handlers directory not found"])

/-- The startup hook `on_startup` at bot.py lines 77 to 86: the health
check server start is awaited inside try/except, so a raise is logged and
the hook returns normally in both cases. -/
def onStartupEvents (listenerFail : Bool) : List Ev :=
  Ev.logInfo "Bot is starting up..." ::
    (if listenerFail then
      [Ev.logError "Failed to start health check server"]
     else
      [Ev.listenerStarted, Ev.logInfo "Health check server started successfully"])

/-- The shutdown hook `on_shutdown` at bot.py lines 88 to 96:
`dp.storage.close()` is awaited, then `dp.storage.wait_closed()`. -/
def onShutdownEvents : List Ev :=
  [Ev.logInfo "Bot is shutting down...",
   Ev.closeStorage,
   Ev.waitClosed,
   Ev.logInfo "Bot shutdown complete"]

/-- `main()` at bot.py lines 98 to 114 under the `__main__` guard at lines
116 to 122.  `executor.start_polling` is modelled from its aiogram
contract: it runs the startup hook, enters the polling loop, and on loop
exit runs the shutdown hook exactly once before returning; an exception
while establishing the loop is caught by the except clause at line 113 and
logged.  The guard at lines 119 to 122 catches whatever escapes `main`,
so the script always runs to completion on this path. -/
def mainEvents (pollFail listenerFail : Bool) : List Ev :=
  Ev.logInfo "Starting bot polling..." ::
    (if pollFail then [Ev.logError "Error starting bot"]
     else onStartupEvents listenerFail ++ [Ev.pollingStarted] ++ onShutdownEvents)

/-- One run of bot.py as `__main__`.  Follows the module-level statement
order of the source: bot initialization (lines 22 to 33), unconditional
`storage = MemoryStorage()` (line 36), then either the `if bot:` block
(dispatcher, web server construction, handler resolution, nested function
definitions, `main()`) or the else branch logging and calling `sys.exit(1)`
(lines 123 to 125).  An exception escaping a module-level statement that no
except clause covers terminates the run as `uncaughtException`. -/
def runBot (env : Env) : RunResult :=
  let initEvs := botInitEvents env.tokenSet env.botInit
  if env.tokenSet = true ∧ env.botInit = BotInitOutcome.ok then
    let evs1 := initEvs ++ [Ev.storageCreated, Ev.dispatcherCreated]
    match portValue env.portVar with
    | none =>
        { events := evs1, sysModules := registryOf evs1,
          outcome := Outcome.uncaughtException "PORT" }
    | some p =>
        let evs2 := evs1 ++ [Ev.webServerCreated p]
        match env.importHandlers with
        | ImportOutcome.otherException =>
            { events := evs2, sysModules := registryOf evs2,
              outcome := Outcome.uncaughtException "import handlers" }
        | ImportOutcome.ok =>
            let evs3 := evs2 ++ [Ev.importOk]
              ++ mainEvents env.pollingFails env.listenerStartFails
            { events := evs3, sysModules := registryOf evs3,
              outcome := Outcome.exitCode 0 }
        | ImportOutcome.moduleNotFound =>
            let evs3 := evs2
              ++ fallbackEvents env.handlersDirExists env.pkgInitFails
                   env.startFails env.adminFails env.ownerFails
              ++ mainEvents env.pollingFails env.listenerStartFails
            { events := evs3, sysModules := registryOf evs3,
              outcome := Outcome.exitCode 0 }
  else
    let evs := initEvs ++ [Ev.storageCreated,
      Ev.logError "Dispatcher not created due to bot initialization failure"]
    { events := evs, sysModules := registryOf evs,
      outcome := Outcome.exitCode 1 }

/-- A benign environment: valid token, all external calls succeed, `PORT`
absent.  Concrete instantiations for witnesses are record updates of it. -/
def envOk : Env :=
  { tokenSet := true
    botInit := BotInitOutcome.ok
    portVar := none
    importHandlers := ImportOutcome.ok
    handlersDirExists := true
    pkgInitFails := false
    startFails := false
    adminFails := false
    ownerFails := false
    listenerStartFails := false
    pollingFails := false }

/-- Concrete environment: conventional import raises `ModuleNotFoundError`
and the fallback loader runs with everything present. -/
def envMnf : Env :=
  { envOk with importHandlers := ImportOutcome.moduleNotFound }

/-- Concrete environment: `bot_token` is empty. -/
def envNoToken : Env :=
  { envOk with tokenSet := false }

/-- Concrete environment: the platform rejects the token with
`ValidationError`. -/
def envBadToken : Env :=
  { envOk with botInit := BotInitOutcome.validationError }

/-- Concrete environment: fallback loading with exactly the start submodule
failing. -/
def envStartFails : Env :=
  { envMnf with startFails := true }

/-- Concrete environment: fallback loading with exactly the owner submodule
failing. -/
def envOwnerFails : Env :=
  { envMnf with ownerFails := true }

/-- Concrete environment: fallback loading with the package initializer
and all three submodules failing. -/
def envAllLoadsFail : Env :=
  { envMnf with pkgInitFails := true, startFails := true, adminFails := true, ownerFails := true }

/-- Concrete environment: the health check server fails to start. -/
def envListenerFails : Env :=
  { envOk with listenerStartFails := true }

/-- Concrete environment: fallback loading with the handlers directory
absent. -/
def envNoDir : Env :=
  { envMnf with handlersDirExists := false }

/-- Concrete environment: `PORT` is set to a non-numeric string. -/
def envBadPort : Env :=
  { envOk with portVar := some "abc" }

/-- Concrete environment: `import handlers` raises an exception that is not
`ModuleNotFoundError`. -/
def envImportCrash : Env :=
  { envOk with importHandlers := ImportOutcome.otherException }

/-- Neither shutdown call occurs during bot initialization. -/
theorem botInit_no_shutdown : ∀ (t : Bool) (r : BotInitOutcome),
    (botInitEvents t r).count Ev.closeStorage = 0 ∧
    (botInitEvents t r).count Ev.waitClosed = 0 := by
  intro t r
  cases t <;> cases r <;> decide

/-- Neither shutdown call occurs during fallback loading, and the fallback
pushes onto `sys.path` exactly once. -/
theorem fallback_counts : ∀ a b c d e : Bool,
    (fallbackEvents a b c d e).count Ev.closeStorage = 0 ∧
    (fallbackEvents a b c d e).count Ev.waitClosed = 0 ∧
    (fallbackEvents a b c d e).count Ev.sysPathInsert = 1 := by
  decide

/-- When the polling loop is established, `main` performs each shutdown
call exactly once and never touches `sys.path`. -/
theorem main_counts : ∀ l : Bool,
    (mainEvents false l).count Ev.closeStorage = 1 ∧
    (mainEvents false l).count Ev.waitClosed = 1 ∧
    (mainEvents false l).count Ev.sysPathInsert = 0 := by
  decide

/-- `main` never writes to `sys.modules`. -/
theorem main_registry : ∀ a b : Bool, registryOf (mainEvents a b) = [] := by
  decide

/-- Whether or not the listener starts, `main` with an established polling
loop ends with the poll event followed by the shutdown hook. -/
theorem main_tail_poll : ∀ l : Bool,
    ∃ pre, mainEvents false l = pre ++ Ev.pollingStarted :: onShutdownEvents := by
  intro l
  cases l with
  | false =>
      exact ⟨[Ev.logInfo "Starting bot polling...", Ev.logInfo "Bot is starting up...",
        Ev.listenerStarted, Ev.logInfo "Health check server started successfully"], rfl⟩
  | true =>
      exact ⟨[Ev.logInfo "Starting bot polling...", Ev.logInfo "Bot is starting up...",
        Ev.logError "Failed to start health check server"], rfl⟩

/-- The close and wait-closed events occur adjacently, in that order,
inside `main` when the polling loop was established. -/
theorem main_adjacent_shutdown : ∀ l : Bool,
    ∃ pre post, mainEvents false l = pre ++ Ev.closeStorage :: Ev.waitClosed :: post := by
  intro l
  cases l with
  | false =>
      exact ⟨[Ev.logInfo "Starting bot polling...", Ev.logInfo "Bot is starting up...",
        Ev.listenerStarted, Ev.logInfo "Health check server started successfully",
        Ev.pollingStarted, Ev.logInfo "Bot is shutting down..."],
        [Ev.logInfo "Bot shutdown complete"], rfl⟩
  | true =>
      exact ⟨[Ev.logInfo "Starting bot polling...", Ev.logInfo "Bot is starting up...",
        Ev.logError "Failed to start health check server",
        Ev.pollingStarted, Ev.logInfo "Bot is shutting down..."],
        [Ev.logInfo "Bot shutdown complete"], rfl⟩

/-- Lifts a trailing poll-then-shutdown decomposition over a prefix. -/
theorem tail_poll_append (x l : List Ev)
    (h : ∃ pre, l = pre ++ Ev.pollingStarted :: onShutdownEvents) :
    ∃ pre, x ++ l = pre ++ Ev.pollingStarted :: onShutdownEvents := by
  obtain ⟨a, ha⟩ := h
  exact ⟨x ++ a, by rw [ha, List.append_assoc]⟩

/-- Lifts an adjacent close/wait-closed decomposition over a prefix. -/
theorem adjacent_append (x l : List Ev)
    (h : ∃ pre post, l = pre ++ Ev.closeStorage :: Ev.waitClosed :: post) :
    ∃ pre post, x ++ l = pre ++ Ev.closeStorage :: Ev.waitClosed :: post := by
  obtain ⟨a, b, hab⟩ := h
  exact ⟨x ++ a, b, by rw [hab, List.append_assoc]⟩

/-- C3: for every empty or malformed credential input, client construction
leaves the Client absent instead of raising to the top level, and the
process exits with status 1 without attempting handler-module resolution
(neither the conventional import nor the fallback) or dispatcher binding. -/
theorem c3_credential_failure_clean_abort (env : Env)
    (h : ¬(env.tokenSet = true ∧ env.botInit = BotInitOutcome.ok)) :
    (runBot env).outcome = Outcome.exitCode 1 ∧
    Ev.botCreated ∉ (runBot env).events ∧
    Ev.dispatcherCreated ∉ (runBot env).events ∧
    Ev.importOk ∉ (runBot env).events ∧
    Ev.sysPathInsert ∉ (runBot env).events ∧
    (runBot env).sysModules = [] := by
  obtain ⟨t, r, pv, ih, hd, pk, st, ad, ow, ls, pf⟩ := env
  simp only at h
  cases t with
  | false => cases r <;> simp [runBot, botInitEvents, registryOf]
  | true =>
      cases r with
      | ok => exact absurd ⟨rfl, rfl⟩ h
      | validationError => simp [runBot, botInitEvents, registryOf]
      | otherError => simp [runBot, botInitEvents, registryOf]

/-- Witness for C3 at the environment whose token fails platform
validation. -/
theorem c3_credential_failure_clean_abort_witness :
    ¬(envBadToken.tokenSet = true ∧ envBadToken.botInit = BotInitOutcome.ok) ∧
    ((runBot envBadToken).outcome = Outcome.exitCode 1 ∧
     Ev.botCreated ∉ (runBot envBadToken).events ∧
     Ev.dispatcherCreated ∉ (runBot envBadToken).events ∧
     Ev.importOk ∉ (runBot envBadToken).events ∧
     Ev.sysPathInsert ∉ (runBot envBadToken).events ∧
     (runBot envBadToken).sysModules = []) :=
  ⟨by decide, c3_credential_failure_clean_abort envBadToken (by decide)⟩

/-- C8: the SessionStore is constructed unconditionally, even when the
Client fails to initialize; on that fatal path the process exits with
status 1 holding the store, and neither close nor wait-closed is ever
invoked on it. -/
theorem c8_storage_unconditional (env : Env)
    (h : ¬(env.tokenSet = true ∧ env.botInit = BotInitOutcome.ok)) :
    Ev.storageCreated ∈ (runBot env).events ∧
    (runBot env).outcome = Outcome.exitCode 1 ∧
    Ev.closeStorage ∉ (runBot env).events ∧
    Ev.waitClosed ∉ (runBot env).events := by
  obtain ⟨t, r, pv, ih, hd, pk, st, ad, ow, ls, pf⟩ := env
  simp only at h
  cases t with
  | false => cases r <;> simp [runBot, botInitEvents, registryOf]
  | true =>
      cases r with
      | ok => exact absurd ⟨rfl, rfl⟩ h
      | validationError => simp [runBot, botInitEvents, registryOf]
      | otherError => simp [runBot, botInitEvents, registryOf]

/-- Witness for C8 at the environment whose token is empty. -/
theorem c8_storage_unconditional_witness :
    ¬(envNoToken.tokenSet = true ∧ envNoToken.botInit = BotInitOutcome.ok) ∧
    (Ev.storageCreated ∈ (runBot envNoToken).events ∧
     (runBot envNoToken).outcome = Outcome.exitCode 1 ∧
     Ev.closeStorage ∉ (runBot envNoToken).events ∧
     Ev.waitClosed ∉ (runBot envNoToken).events) :=
  ⟨by decide, c8_storage_unconditional envNoToken (by decide)⟩

/-- C9: with a valid credential, a `PORT` value that is not a valid integer
literal makes `int()` raise at module load time and the process crashes
with an uncaught exception before the web server object exists and before
any polling; the default 8080 is applied exactly when `PORT` is absent. -/
theorem c9_malformed_port_crashes (env : Env)
    (ht : env.tokenSet = true) (hb : env.botInit = BotInitOutcome.ok)
    (s : String) (hs : env.portVar = some s) (hbad : pythonInt s = none) :
    (runBot env).outcome = Outcome.uncaughtException "PORT" ∧
    Ev.pollingStarted ∉ (runBot env).events ∧
    Ev.webServerCreated 8080 ∉ (runBot env).events ∧
    Ev.webServerCreated 8080 ∈ (runBot { env with portVar := none }).events := by
  obtain ⟨t, r, pv, ih, hd, pk, st, ad, ow, ls, pf⟩ := env
  simp only at ht hb hs
  subst ht hb hs
  refine ⟨?_, ?_, ?_, ?_⟩
  · simp [runBot, portValue, hbad]
  · simp [runBot, portValue, hbad, botInitEvents]
  · simp [runBot, portValue, hbad, botInitEvents]
  · cases ih <;> simp [runBot, portValue, botInitEvents]

/-- Witness for C9 at the environment with `PORT` set to "abc". -/
theorem c9_malformed_port_crashes_witness :
    envBadPort.tokenSet = true ∧ envBadPort.botInit = BotInitOutcome.ok ∧
    envBadPort.portVar = some "abc" ∧ pythonInt "abc" = none ∧
    ((runBot envBadPort).outcome = Outcome.uncaughtException "PORT" ∧
     Ev.pollingStarted ∉ (runBot envBadPort).events ∧
     Ev.webServerCreated 8080 ∉ (runBot envBadPort).events ∧
     Ev.webServerCreated 8080 ∈ (runBot { envBadPort with portVar := none }).events) :=
  ⟨rfl, rfl, rfl, by decide,
    c9_malformed_port_crashes envBadPort rfl rfl "abc" rfl (by decide)⟩

/-- C1: running bot.py as `__main__` with a valid credential (in an
otherwise well-formed environment: parseable port, no unhandled import
error, polling loop establishes) performs the full startup sequence and
enters the polling loop via `start_polling`: the trace reaches the poll
event, the run ends only after the polling loop has exited and the
shutdown hook has run, and the process ends with status 0 rather than
returning without having polled. -/
theorem c1_entry_reaches_and_holds_polling (env : Env)
    (ht : env.tokenSet = true) (hb : env.botInit = BotInitOutcome.ok)
    (p : Int) (hp : portValue env.portVar = some p)
    (hi : env.importHandlers ≠ ImportOutcome.otherException)
    (hpoll : env.pollingFails = false) :
    Ev.pollingStarted ∈ (runBot env).events ∧
    (runBot env).outcome = Outcome.exitCode 0 ∧
    ∃ pre, (runBot env).events = pre ++ Ev.pollingStarted :: onShutdownEvents := by
  obtain ⟨t, r, pv, ih, hd, pk, st, ad, ow, ls, pf⟩ := env
  simp only at ht hb hpoll
  subst ht hb hpoll
  cases ih with
  | otherException => exact absurd rfl hi
  | ok =>
      refine ⟨?_, ?_, ?_⟩
      · simp [runBot, hp, mainEvents, onStartupEvents]
      · simp [runBot, hp]
      · simp only [runBot, hp]
        exact tail_poll_append _ _ (main_tail_poll ls)
  | moduleNotFound =>
      refine ⟨?_, ?_, ?_⟩
      · simp [runBot, hp, mainEvents, onStartupEvents]
      · simp [runBot, hp]
      · simp only [runBot, hp]
        exact tail_poll_append _ _ (main_tail_poll ls)

/-- Witness for C1 at the benign environment. -/
theorem c1_entry_reaches_and_holds_polling_witness :
    envOk.tokenSet = true ∧ envOk.botInit = BotInitOutcome.ok ∧
    portValue envOk.portVar = some 8080 ∧
    envOk.importHandlers ≠ ImportOutcome.otherException ∧
    envOk.pollingFails = false ∧
    (Ev.pollingStarted ∈ (runBot envOk).events ∧
     (runBot envOk).outcome = Outcome.exitCode 0 ∧
     ∃ pre, (runBot envOk).events = pre ++ Ev.pollingStarted :: onShutdownEvents) :=
  ⟨rfl, rfl, rfl, by decide, rfl,
    c1_entry_reaches_and_holds_polling envOk rfl rfl 8080 rfl (by decide) rfl⟩

/-- C4: whenever the shutdown hook runs (the polling loop was established
and then exited), the SessionStore close is invoked exactly once, the
wait-closed exactly once, and they occur adjacently with close first, so
wait-closed is never invoked before close. -/
theorem c4_close_then_wait_exactly_once (env : Env)
    (ht : env.tokenSet = true) (hb : env.botInit = BotInitOutcome.ok)
    (p : Int) (hp : portValue env.portVar = some p)
    (hi : env.importHandlers ≠ ImportOutcome.otherException)
    (hpoll : env.pollingFails = false) :
    (runBot env).events.count Ev.closeStorage = 1 ∧
    (runBot env).events.count Ev.waitClosed = 1 ∧
    ∃ pre post, (runBot env).events = pre ++ Ev.closeStorage :: Ev.waitClosed :: post := by
  obtain ⟨t, r, pv, ih, hd, pk, st, ad, ow, ls, pf⟩ := env
  simp only at ht hb hpoll
  subst ht hb hpoll
  cases ih with
  | otherException => exact absurd rfl hi
  | ok =>
      refine ⟨?_, ?_, ?_⟩
      · simp [runBot, hp, List.count_append, botInitEvents, (main_counts ls).1,
          List.count_cons]
      · simp [runBot, hp, List.count_append, botInitEvents, (main_counts ls).2.1,
          List.count_cons]
      · simp only [runBot, hp]
        exact adjacent_append _ _ (main_adjacent_shutdown ls)
  | moduleNotFound =>
      refine ⟨?_, ?_, ?_⟩
      · simp [runBot, hp, List.count_append, botInitEvents, (main_counts ls).1,
          (fallback_counts hd pk st ad ow).1, List.count_cons]
      · simp [runBot, hp, List.count_append, botInitEvents, (main_counts ls).2.1,
          (fallback_counts hd pk st ad ow).2.1, List.count_cons]
      · simp only [runBot, hp]
        exact adjacent_append _ _ (main_adjacent_shutdown ls)

/-- Witness for C4 at the benign environment with the fallback loader
active. -/
theorem c4_close_then_wait_exactly_once_witness :
    envMnf.tokenSet = true ∧ envMnf.botInit = BotInitOutcome.ok ∧
    portValue envMnf.portVar = some 8080 ∧
    envMnf.importHandlers ≠ ImportOutcome.otherException ∧
    envMnf.pollingFails = false ∧
    ((runBot envMnf).events.count Ev.closeStorage = 1 ∧
     (runBot envMnf).events.count Ev.waitClosed = 1 ∧
     ∃ pre post, (runBot envMnf).events = pre ++ Ev.closeStorage :: Ev.waitClosed :: post) :=
  ⟨rfl, rfl, rfl, by decide, rfl,
    c4_close_then_wait_exactly_once envMnf rfl rfl 8080 rfl (by decide) rfl⟩

/-- C2 counterexample: at a concrete environment with a valid credential
where the conventional `import handlers` raises an exception that is not
`ModuleNotFoundError`, the process is terminated by that uncaught
exception and never reaches the polling loop, contradicting the claim
that every handler-resolution failure, of any kind, is contained. -/
theorem c2_cex_other_import_error_fatal :
    envImportCrash.tokenSet = true ∧
    envImportCrash.botInit = BotInitOutcome.ok ∧
    envImportCrash.importHandlers = ImportOutcome.otherException ∧
    (runBot envImportCrash).outcome = Outcome.uncaughtException "import handlers" ∧
    (runBot envImportCrash).outcome ≠ Outcome.exitCode 0 ∧
    Ev.pollingStarted ∉ (runBot envImportCrash).events := by
  decide

/-- C2 (amended): when the conventional `import handlers` fails with the
module-tree-not-found condition, every failure inside the fallback
path-based loading (package initializer or any submodule, with any
combination of the fallback failure flags) is contained and logged: the
process is not terminated by it, the run still ends with exit status 0,
and the polling loop still starts when it can be established.  An
`import handlers` failure of any other kind is not covered: it propagates
uncaught (see the counterexample). -/
theorem c2_resolution_failures_contained (env : Env)
    (ht : env.tokenSet = true) (hb : env.botInit = BotInitOutcome.ok)
    (p : Int) (hp : portValue env.portVar = some p)
    (hi : env.importHandlers = ImportOutcome.moduleNotFound) :
    (runBot env).outcome = Outcome.exitCode 0 ∧
    (env.pollingFails = false → Ev.pollingStarted ∈ (runBot env).events) := by
  obtain ⟨t, r, pv, ih, hd, pk, st, ad, ow, ls, pf⟩ := env
  simp only at ht hb hi
  subst ht hb hi
  refine ⟨?_, ?_⟩
  · simp [runBot, hp]
  · intro hpoll
    simp only at hpoll
    subst hpoll
    simp [runBot, hp, mainEvents, onStartupEvents]

/-- Witness for the amended C2 at the fallback environment with every
fallback load failing. -/
theorem c2_resolution_failures_contained_witness :
    envAllLoadsFail.tokenSet = true ∧
    envAllLoadsFail.botInit = BotInitOutcome.ok ∧
    portValue envAllLoadsFail.portVar = some 8080 ∧
    envAllLoadsFail.importHandlers = ImportOutcome.moduleNotFound ∧
    ((runBot envAllLoadsFail).outcome = Outcome.exitCode 0 ∧
     (envAllLoadsFail.pollingFails = false →
       Ev.pollingStarted ∈ (runBot envAllLoadsFail).events)) :=
  ⟨rfl, rfl, rfl, rfl,
    c2_resolution_failures_contained envAllLoadsFail rfl rfl 8080 rfl rfl⟩

/-- `main` never pushes onto `sys.path`. -/
theorem main_no_syspath : ∀ a b : Bool, (mainEvents a b).count Ev.sysPathInsert = 0 := by
  decide

/-- `registryOf` distributes over append. -/
theorem registryOf_append (l1 l2 : List Ev) :
    registryOf (l1 ++ l2) = registryOf l1 ++ registryOf l2 := by
  simp [registryOf]

/-- Successful bot initialization writes nothing to `sys.modules`. -/
theorem registry_botInit : registryOf (botInitEvents true BotInitOutcome.ok) = [] := by
  simp [registryOf, botInitEvents]

/-- Storage and dispatcher creation write nothing to `sys.modules`. -/
theorem registry_pair : registryOf [Ev.storageCreated, Ev.dispatcherCreated] = [] := by
  simp [registryOf]

/-- Web server construction writes nothing to `sys.modules`. -/
theorem registry_web (p : Int) : registryOf [Ev.webServerCreated p] = [] := by
  simp [registryOf]

/-- When the handlers directory exists, the fallback loader registers the
package and all three submodules in `sys.modules`, whatever fails. -/
theorem fallback_registry : ∀ b c d e : Bool,
    registryOf (fallbackEvents true b c d e) =
      ["handlers", "handlers.start", "handlers.admin", "handlers.owner"] := by
  decide

/-- C5: in the fallback path-based loading, a failure while loading one
submodule is caught and logged and does not prevent the others: every
submodule whose load succeeds registers (its loaded event is in the
trace), and every submodule whose load fails contributes exactly a logged
error. -/
theorem c5_submodule_failures_isolated (env : Env)
    (ht : env.tokenSet = true) (hb : env.botInit = BotInitOutcome.ok)
    (p : Int) (hp : portValue env.portVar = some p)
    (hi : env.importHandlers = ImportOutcome.moduleNotFound)
    (hd : env.handlersDirExists = true) :
    (env.startFails = false → Ev.submoduleLoaded "handlers.start" ∈ (runBot env).events) ∧
    (env.adminFails = false → Ev.submoduleLoaded "handlers.admin" ∈ (runBot env).events) ∧
    (env.ownerFails = false → Ev.submoduleLoaded "handlers.owner" ∈ (runBot env).events) ∧
    (env.startFails = true → Ev.logError "Failed to import handlers.start" ∈ (runBot env).events) ∧
    (env.adminFails = true → Ev.logError "Failed to import handlers.admin" ∈ (runBot env).events) ∧
    (env.ownerFails = true → Ev.logError "Failed to import handlers.owner" ∈ (runBot env).events) := by
  obtain ⟨t, r, pv, ih, hdd, pk, st, ad, ow, ls, pf⟩ := env
  simp only at ht hb hi hd
  subst ht hb hi hd
  refine ⟨?_, ?_, ?_, ?_, ?_, ?_⟩ <;>
    (intro hx
     simp only at hx
     subst hx
     simp [runBot, hp, fallbackEvents, submoduleLoad, pkgInitLoad])

/-- Witness for C5 at the environment where exactly the start submodule
fails: admin and owner still load, and the start failure is logged. -/
theorem c5_submodule_failures_isolated_witness :
    envStartFails.tokenSet = true ∧ envStartFails.botInit = BotInitOutcome.ok ∧
    portValue envStartFails.portVar = some 8080 ∧
    envStartFails.importHandlers = ImportOutcome.moduleNotFound ∧
    envStartFails.handlersDirExists = true ∧
    ((envStartFails.startFails = false →
        Ev.submoduleLoaded "handlers.start" ∈ (runBot envStartFails).events) ∧
     (envStartFails.adminFails = false →
        Ev.submoduleLoaded "handlers.admin" ∈ (runBot envStartFails).events) ∧
     (envStartFails.ownerFails = false →
        Ev.submoduleLoaded "handlers.owner" ∈ (runBot envStartFails).events) ∧
     (envStartFails.startFails = true →
        Ev.logError "Failed to import handlers.start" ∈ (runBot envStartFails).events) ∧
     (envStartFails.adminFails = true →
        Ev.logError "Failed to import handlers.admin" ∈ (runBot envStartFails).events) ∧
     (envStartFails.ownerFails = true →
        Ev.logError "Failed to import handlers.owner" ∈ (runBot envStartFails).events)) :=
  ⟨rfl, rfl, rfl, rfl, rfl,
    c5_submodule_failures_isolated envStartFails rfl rfl 8080 rfl rfl rfl⟩

/-- C6: a failure of the health check server start inside the startup hook
is caught and logged, the hook returns normally and the polling loop still
starts; compared with the same run where the listener starts, the outcome
is identical and the trace differs only in the one failure segment being a
logged error instead of the listener start events. -/
theorem c6_listener_failure_only_logged (env : Env)
    (ht : env.tokenSet = true) (hb : env.botInit = BotInitOutcome.ok)
    (p : Int) (hp : portValue env.portVar = some p)
    (hi : env.importHandlers ≠ ImportOutcome.otherException)
    (hpoll : env.pollingFails = false)
    (hl : env.listenerStartFails = true) :
    Ev.pollingStarted ∈ (runBot env).events ∧
    (runBot env).outcome = (runBot { env with listenerStartFails := false }).outcome ∧
    ∃ pre post,
      (runBot env).events = pre ++ Ev.logError "Failed to start health check server" :: post ∧
      (runBot { env with listenerStartFails := false }).events =
        pre ++ Ev.listenerStarted :: Ev.logInfo "Health check server started successfully" :: post := by
  obtain ⟨t, r, pv, ih, hdd, pk, st, ad, ow, ls, pf⟩ := env
  simp only at ht hb hpoll hl
  subst ht hb hpoll hl
  cases ih with
  | otherException => exact absurd rfl hi
  | ok =>
      refine ⟨?_, ?_, ?_, ?_, ?_, ?_⟩
      · simp [runBot, hp, mainEvents, onStartupEvents]
      · simp [runBot, hp]
      · exact [Ev.botCreated, Ev.logInfo "Bot initialized successfully", Ev.storageCreated,
          Ev.dispatcherCreated, Ev.webServerCreated p, Ev.importOk,
          Ev.logInfo "Starting bot polling...", Ev.logInfo "Bot is starting up..."]
      · exact [Ev.pollingStarted, Ev.logInfo "Bot is shutting down...", Ev.closeStorage,
          Ev.waitClosed, Ev.logInfo "Bot shutdown complete"]
      · simp [runBot, hp, mainEvents, onStartupEvents, onShutdownEvents, botInitEvents]
      · simp [runBot, hp, mainEvents, onStartupEvents, onShutdownEvents, botInitEvents]
  | moduleNotFound =>
      refine ⟨?_, ?_, ?_, ?_, ?_, ?_⟩
      · simp [runBot, hp, mainEvents, onStartupEvents]
      · simp [runBot, hp]
      · exact [Ev.botCreated, Ev.logInfo "Bot initialized successfully", Ev.storageCreated,
          Ev.dispatcherCreated, Ev.webServerCreated p]
          ++ fallbackEvents hdd pk st ad ow
          ++ [Ev.logInfo "Starting bot polling...", Ev.logInfo "Bot is starting up..."]
      · exact [Ev.pollingStarted, Ev.logInfo "Bot is shutting down...", Ev.closeStorage,
          Ev.waitClosed, Ev.logInfo "Bot shutdown complete"]
      · simp [runBot, hp, mainEvents, onStartupEvents, onShutdownEvents, botInitEvents]
      · simp [runBot, hp, mainEvents, onStartupEvents, onShutdownEvents, botInitEvents]

/-- Witness for C6 at the environment where only the listener start
fails. -/
theorem c6_listener_failure_only_logged_witness :
    envListenerFails.tokenSet = true ∧ envListenerFails.botInit = BotInitOutcome.ok ∧
    portValue envListenerFails.portVar = some 8080 ∧
    envListenerFails.importHandlers ≠ ImportOutcome.otherException ∧
    envListenerFails.pollingFails = false ∧
    envListenerFails.listenerStartFails = true ∧
    (Ev.pollingStarted ∈ (runBot envListenerFails).events ∧
     (runBot envListenerFails).outcome =
       (runBot { envListenerFails with listenerStartFails := false }).outcome ∧
     ∃ pre post,
       (runBot envListenerFails).events =
         pre ++ Ev.logError "Failed to start health check server" :: post ∧
       (runBot { envListenerFails with listenerStartFails := false }).events =
         pre ++ Ev.listenerStarted :: Ev.logInfo "Health check server started successfully" :: post) :=
  ⟨rfl, rfl, rfl, by decide, rfl, rfl,
    c6_listener_failure_only_logged envListenerFails rfl rfl 8080 rfl (by decide) rfl rfl⟩

/-- C7: when the conventional resolution fails with module-tree-not-found,
the fallback is attempted exactly once (one `sys.path` push); and when the
handlers directory is moreover absent, only an error is logged, nothing is
registered (empty handler module set), and the process still reaches the
running state with a clean exit, starting the polling loop when it can be
established. -/
theorem c7_fallback_once_degraded_alive (env : Env)
    (ht : env.tokenSet = true) (hb : env.botInit = BotInitOutcome.ok)
    (p : Int) (hp : portValue env.portVar = some p)
    (hi : env.importHandlers = ImportOutcome.moduleNotFound) :
    (runBot env).events.count Ev.sysPathInsert = 1 ∧
    (env.handlersDirExists = false →
      Ev.logError "Handlers directory not found" ∈ (runBot env).events ∧
      (runBot env).sysModules = [] ∧
      (runBot env).outcome = Outcome.exitCode 0 ∧
      (env.pollingFails = false → Ev.pollingStarted ∈ (runBot env).events)) := by
  obtain ⟨t, r, pv, ih, hdd, pk, st, ad, ow, ls, pf⟩ := env
  simp only at ht hb hi
  subst ht hb hi
  refine ⟨?_, ?_⟩
  · have h1 := (fallback_counts hdd pk st ad ow).2.2
    have h2 := main_no_syspath pf ls
    simp [runBot, hp, List.count_append, List.count_cons, botInitEvents, h1, h2]
  · intro hdx
    simp only at hdx
    subst hdx
    cases pf <;> cases ls <;>
      simp [runBot, hp, registryOf, mainEvents, onStartupEvents, onShutdownEvents,
        fallbackEvents, botInitEvents]

/-- Witness for C7 at the environment with the handlers directory
absent. -/
theorem c7_fallback_once_degraded_alive_witness :
    envNoDir.tokenSet = true ∧ envNoDir.botInit = BotInitOutcome.ok ∧
    portValue envNoDir.portVar = some 8080 ∧
    envNoDir.importHandlers = ImportOutcome.moduleNotFound ∧
    ((runBot envNoDir).events.count Ev.sysPathInsert = 1 ∧
     (envNoDir.handlersDirExists = false →
       Ev.logError "Handlers directory not found" ∈ (runBot envNoDir).events ∧
       (runBot envNoDir).sysModules = [] ∧
       (runBot envNoDir).outcome = Outcome.exitCode 0 ∧
       (envNoDir.pollingFails = false → Ev.pollingStarted ∈ (runBot envNoDir).events))) :=
  ⟨rfl, rfl, rfl, rfl,
    c7_fallback_once_degraded_alive envNoDir rfl rfl 8080 rfl rfl⟩

/-- C10: in the fallback loading, each of the three submodules is inserted
into `sys.modules` before its code runs, so after the fallback the
registry holds an entry for every attempted submodule whatever the failure
flags are; a submodule whose execution raised stays registered although it
never completed loading. -/
theorem c10_failed_submodules_stay_registered (env : Env)
    (ht : env.tokenSet = true) (hb : env.botInit = BotInitOutcome.ok)
    (p : Int) (hp : portValue env.portVar = some p)
    (hi : env.importHandlers = ImportOutcome.moduleNotFound)
    (hd : env.handlersDirExists = true) :
    "handlers.start" ∈ (runBot env).sysModules ∧
    "handlers.admin" ∈ (runBot env).sysModules ∧
    "handlers.owner" ∈ (runBot env).sysModules ∧
    (env.startFails = true → Ev.submoduleLoaded "handlers.start" ∉ (runBot env).events) ∧
    (env.adminFails = true → Ev.submoduleLoaded "handlers.admin" ∉ (runBot env).events) ∧
    (env.ownerFails = true → Ev.submoduleLoaded "handlers.owner" ∉ (runBot env).events) := by
  obtain ⟨t, r, pv, ih, hdd, pk, st, ad, ow, ls, pf⟩ := env
  simp only at ht hb hi hd
  subst ht hb hi hd
  refine ⟨?_, ?_, ?_, ?_, ?_, ?_⟩
  · simp [runBot, hp, registryOf, fallbackEvents, submoduleLoad, pkgInitLoad, mainEvents,
      onStartupEvents, onShutdownEvents, botInitEvents, List.filterMap_append]
  · simp [runBot, hp, registryOf, fallbackEvents, submoduleLoad, pkgInitLoad, mainEvents,
      onStartupEvents, onShutdownEvents, botInitEvents, List.filterMap_append]
  · simp [runBot, hp, registryOf, fallbackEvents, submoduleLoad, pkgInitLoad, mainEvents,
      onStartupEvents, onShutdownEvents, botInitEvents, List.filterMap_append]
  · intro hx
    simp only at hx
    subst hx
    cases pk <;> cases ad <;> cases ow <;> cases ls <;> cases pf <;>
      simp [runBot, hp, fallbackEvents, submoduleLoad, pkgInitLoad, mainEvents,
        onStartupEvents, onShutdownEvents, botInitEvents]
  · intro hx
    simp only at hx
    subst hx
    cases pk <;> cases st <;> cases ow <;> cases ls <;> cases pf <;>
      simp [runBot, hp, fallbackEvents, submoduleLoad, pkgInitLoad, mainEvents,
        onStartupEvents, onShutdownEvents, botInitEvents]
  · intro hx
    simp only at hx
    subst hx
    cases pk <;> cases st <;> cases ad <;> cases ls <;> cases pf <;>
      simp [runBot, hp, fallbackEvents, submoduleLoad, pkgInitLoad, mainEvents,
        onStartupEvents, onShutdownEvents, botInitEvents]

/-- Witness for C10 at the environment where the owner submodule fails:
it is registered but never finishes loading. -/
theorem c10_failed_submodules_stay_registered_witness :
    envOwnerFails.tokenSet = true ∧ envOwnerFails.botInit = BotInitOutcome.ok ∧
    portValue envOwnerFails.portVar = some 8080 ∧
    envOwnerFails.importHandlers = ImportOutcome.moduleNotFound ∧
    envOwnerFails.handlersDirExists = true ∧
    ("handlers.start" ∈ (runBot envOwnerFails).sysModules ∧
     "handlers.admin" ∈ (runBot envOwnerFails).sysModules ∧
     "handlers.owner" ∈ (runBot envOwnerFails).sysModules ∧
     (envOwnerFails.startFails = true →
        Ev.submoduleLoaded "handlers.start" ∉ (runBot envOwnerFails).events) ∧
     (envOwnerFails.adminFails = true →
        Ev.submoduleLoaded "handlers.admin" ∉ (runBot envOwnerFails).events) ∧
     (envOwnerFails.ownerFails = true →
        Ev.submoduleLoaded "handlers.owner" ∉ (runBot envOwnerFails).events)) :=
  ⟨rfl, rfl, rfl, rfl, rfl,
    c10_failed_submodules_stay_registered envOwnerFails rfl rfl 8080 rfl rfl rfl⟩
